import Mathlib

/-!
# Verification of the hepconduit event-conversion pipeline

This file is a shallow embedding, in Lean 4, of the parts of the
`hepconduit` Python package that the checked claims are about:

* `hepconduit/fingerprint.py` (quantised content fingerprint of an event),
* `hepconduit/audit.py` and the audit part of `hepconduit/convert.py`
  (capability-based loss plan, loss observer, canonical-JSON loss hash),
* `hepconduit/io/lhe.py` (the Les Houches event-block parser),
* `hepconduit/io/hepmc3.py` and `hepconduit/io/parquet.py`
  (the HepMC3 `P`-record parser and the two vertex reconstructors),
* `hepconduit/validation.py` (per-event physics checks),
* `hepconduit/filtering.py` (the AST validator of the filter sub-language),
* `hepconduit/models.py` (the event data model).

Modelling conventions, used throughout:

* Python `float` values are embedded as `ℚ`.  Every concrete number that
  appears in the inputs of the theorems below (for example `0.5`, `6500.0`,
  `1e-4`) is exactly representable as an IEEE double, and the arithmetic
  performed on them by the code paths under scrutiny is exact in double
  precision as well, so the rational model agrees with the float run.
* Python exceptions raised while producing a value are embedded as `none`
  in an `Option` result.
* Python `dict`s are embedded as association lists.  Where the code relies
  on `json.dumps(..., sort_keys=True)`, the JSON encoder below receives the
  keys already sorted, which produces the identical byte string.
* SHA-256 is implemented in full (FIPS 180-4) on byte lists; all hashed
  strings in this development are ASCII, so `Char.toNat` agrees with the
  UTF-8 encoding used by the Python code.
-/

namespace Sha256

/-- 2^32, the word modulus of SHA-256. -/
def M32 : Nat := 4294967296

/-- Rotate a 32-bit word (represented as a `Nat` below `M32`) right by `n`. -/
def rotr (n x : Nat) : Nat := (x >>> n) ||| ((x <<< (32 - n)) % M32)

/-- Bitwise complement within 32 bits. -/
def comp32 (x : Nat) : Nat := 4294967295 - x

def ch (e f g : Nat) : Nat := (e &&& f) ^^^ (comp32 e &&& g)

def maj (a b c : Nat) : Nat := (a &&& b) ^^^ (a &&& c) ^^^ (b &&& c)

def bigS0 (x : Nat) : Nat := rotr 2 x ^^^ rotr 13 x ^^^ rotr 22 x

def bigS1 (x : Nat) : Nat := rotr 6 x ^^^ rotr 11 x ^^^ rotr 25 x

def smallS0 (x : Nat) : Nat := rotr 7 x ^^^ rotr 18 x ^^^ (x >>> 3)

def smallS1 (x : Nat) : Nat := rotr 17 x ^^^ rotr 19 x ^^^ (x >>> 10)

/-- The 64 round constants of FIPS 180-4, written in decimal. -/
def K : List Nat :=
  [   1116352408, 1899447441, 3049323471, 3921009573, 961987163, 1508970993,
   2453635748, 2870763221, 3624381080, 310598401, 607225278, 1426881987,
   1925078388, 2162078206, 2614888103, 3248222580, 3835390401, 4022224774,
   264347078, 604807628, 770255983, 1249150122, 1555081692, 1996064986,
   2554220882, 2821834349, 2952996808, 3210313671, 3336571891, 3584528711,
   113926993, 338241895, 666307205, 773529912, 1294757372, 1396182291,
   1695183700, 1986661051, 2177026350, 2456956037, 2730485921, 2820302411,
   3259730800, 3345764771, 3516065817, 3600352804, 4094571909, 275423344,
   430227734, 506948616, 659060556, 883997877, 958139571, 1322822218,
   1537002063, 1747873779, 1955562222, 2024104815, 2227730452, 2361852424,
   2428436474, 2756734187, 3204031479, 3329325298]

/-- Initial hash state (FIPS 180-4), written in decimal. -/
def H0 : List Nat :=
  [   1779033703, 3144134277, 1013904242, 2773480762,
   1359893119, 2600822924, 528734635, 1541459225]

/-- Group a byte list into big-endian 32-bit words. -/
def bytesToWords : List Nat → List Nat
  | b0 :: b1 :: b2 :: b3 :: rest => (((b0 * 256 + b1) * 256 + b2) * 256 + b3) :: bytesToWords rest
  | _ => []

/-- Extend the 16 message words to 64 words; performs `n` extension steps. -/
def schedule : Nat → List Nat → List Nat
  | 0, acc => acc
  | n + 1, acc =>
      let i := acc.length
      let wi := (smallS1 (acc.getD (i - 2) 0) + acc.getD (i - 7) 0 +
                 smallS0 (acc.getD (i - 15) 0) + acc.getD (i - 16) 0) % M32
      schedule n (acc ++ [wi])

/-- One compression round; the state is the list `[a,b,c,d,e,f,g,h]`. -/
def compressStep (st : List Nat) (kw : Nat × Nat) : List Nat :=
  match st with
  | [a, b, c, d, e, f, g, h] =>
      let t1 := (h + bigS1 e + ch e f g + kw.1 + kw.2) % M32
      let t2 := (bigS0 a + maj a b c) % M32
      [(t1 + t2) % M32, a, b, c, (d + t1) % M32, e, f, g]
  | other => other

/-- Process one 64-byte block. -/
def processBlock (hs : List Nat) (block : List Nat) : List Nat :=
  let w := schedule 48 (bytesToWords block)
  let st := (K.zip w).foldl (fun s kw => compressStep s (kw.1, kw.2)) hs
  List.zipWith (fun x y => (x + y) % M32) hs st

/-- Big-endian byte expansion of `n` into `k` bytes. -/
def beBytes (n : Nat) : Nat → List Nat
  | 0 => []
  | k + 1 => beBytes (n / 256) k ++ [n % 256]

/-- FIPS 180-4 padding: append `0x80`, zeros, and the 64-bit bit length. -/
def padBytes (msg : List Nat) : List Nat :=
  let L := msg.length
  msg ++ [128] ++ List.replicate ((119 - L % 64) % 64) 0 ++ beBytes (L * 8) 8

/-- Split a byte list into 64-byte blocks (`fuel` bounds the recursion depth;
it is instantiated with the length of the list, which suffices because every
step consumes at least one byte). -/
def chunk64Aux : Nat → List Nat → List (List Nat)
  | _, [] => []
  | 0, _ => []
  | fuel + 1, b :: bs => (b :: bs).take 64 :: chunk64Aux fuel ((b :: bs).drop 64)

/-- Split a byte list into 64-byte blocks. -/
def chunk64 (l : List Nat) : List (List Nat) := chunk64Aux l.length l

/-- The eight 32-bit words of the SHA-256 digest of a byte list. -/
def sha256Words (msg : List Nat) : List Nat :=
  (chunk64 (padBytes msg)).foldl processBlock H0

def hexChar (n : Nat) : Char := if n < 10 then Char.ofNat (48 + n) else Char.ofNat (87 + n)

def wordHex (w : Nat) : List Char :=
  [hexChar ((w >>> 28) &&& 15), hexChar ((w >>> 24) &&& 15), hexChar ((w >>> 20) &&& 15),
   hexChar ((w >>> 16) &&& 15), hexChar ((w >>> 12) &&& 15), hexChar ((w >>> 8) &&& 15),
   hexChar ((w >>> 4) &&& 15), hexChar (w &&& 15)]

/-- Lower-case hex digest of a byte list, as `hashlib.sha256(..).hexdigest()`. -/
def sha256hexBytes (msg : List Nat) : String :=
  String.mk ((sha256Words msg).map wordHex).flatten

/-- Byte view of an ASCII string (agrees with UTF-8 on ASCII input). -/
def strBytes (s : String) : List Nat := s.data.map Char.toNat

/-- `hashlib.sha256(s.encode("utf-8")).hexdigest()` for ASCII `s`. -/
def sha256hex (s : String) : String := sha256hexBytes (strBytes s)

end Sha256

/-! ## Canonical JSON (`provenance.stable_json_dumps`)

`stable_json_dumps(obj)` in `hepconduit/provenance.py` is
`json.dumps(obj, sort_keys=True, separators=(",", ":"), ensure_ascii=False)`.
The loss payloads serialised in this development contain only strings,
integers, arrays and objects, so the embedded value type has exactly those
constructors.  Key sorting happens inside the encoder, as in `json.dumps`.
The encoder recurses on an explicit fuel that dominates the nesting depth
of every payload in this development; this keeps the function structurally
recursive so that it evaluates inside `decide`. -/

inductive Json where
  | str (s : String)
  | int (n : Int)
  | arr (xs : List Json)
  | obj (kvs : List (String × Json))

/-- Escapes of `json.dumps` for the characters that can occur in this
development's payloads (they are all printable ASCII; the quote and
backslash escapes are included for faithfulness). -/
def escapeChar (c : Char) : String :=
  if c = '"' then "\\\""
  else if c = '\\' then "\\\\"
  else if c = '\n' then "\\n"
  else if c = '\t' then "\\t"
  else if c = '\r' then "\\r"
  else String.singleton c

def escapeStr (s : String) : String := String.join (s.data.map escapeChar)

def dumpsFuel : Nat → Json → String
  | 0, _ => ""
  | _ + 1, .str s => "\"" ++ escapeStr s ++ "\""
  | _ + 1, .int n => toString n
  | fuel + 1, .arr xs => "[" ++ String.intercalate "," (xs.map (dumpsFuel fuel)) ++ "]"
  | fuel + 1, .obj kvs =>
      let sorted := List.insertionSort (fun a b : String × Json => a.1 ≤ b.1) kvs
      "\x7b" ++
        String.intercalate ","
          (sorted.map (fun kv => "\"" ++ escapeStr kv.1 ++ "\":" ++ dumpsFuel fuel kv.2)) ++
        "\x7d"

/-- `stable_json_dumps`: minimal separators, sorted keys.  The fuel `1000000`
bounds the nesting depth (the loss payloads below have depth five). -/
def stable_json_dumps (j : Json) : String := dumpsFuel 1000000 j

/-! ## Event data model (`hepconduit/models.py`)

Python floats are embedded as `ℚ`; the free-form `attributes` and `extra`
dictionaries are embedded as association lists (the readers modelled in this
file only ever store integer attribute values and string extra values). -/

structure Particle where
  pdg_id : Int
  status : Int
  px : ℚ
  py : ℚ
  pz : ℚ
  energy : ℚ
  mass : ℚ := 0
  mother1 : Int := 0
  mother2 : Int := 0
  color1 : Int := 0
  color2 : Int := 0
  spin : ℚ := 9
  barcode : Int := 0
  vertex_barcode : Int := 0
  end_vertex_barcode : Int := 0
  attributes : List (String × Int) := []
deriving DecidableEq

def Particle.is_incoming (p : Particle) : Prop := p.status = -1

def Particle.is_final (p : Particle) : Prop := p.status = 1

def Particle.is_intermediate (p : Particle) : Prop := p.status = 2

structure Vertex where
  barcode : Int := 0
  x : ℚ := 0
  y : ℚ := 0
  z : ℚ := 0
  t : ℚ := 0
  incoming : List Int := []
  outgoing : List Int := []
deriving DecidableEq

structure Event where
  event_number : Int := 0
  particles : List Particle := []
  vertices : List Vertex := []
  weights : List ℚ := [1]
  process_id : Int := 0
  scale : ℚ := 0
  alpha_qed : ℚ := 0
  alpha_qcd : ℚ := 0
  n_particles : Int := 0
  extra : List (String × String) := []
deriving DecidableEq

/-- `Event.weight`: `self.weights[0] if self.weights else 1.0`. -/
def Event.weight (ev : Event) : ℚ :=
  match ev.weights with
  | [] => 1
  | w :: _ => w

/-! ## Fingerprinter (`hepconduit/fingerprint.py`)

`_quantize(x, abs_tol)` is `int(round(x / abs_tol))` guarded by
`abs_tol > 0`; Python 3 `round` rounds half to even.  A raised `ValueError`
is embedded as `none`.  `fingerprint_event` feeds a canonical byte string
into SHA-256; the string is assembled below exactly in the order of the
`h.update` calls of the source. -/

/-- Python 3 `round` to an integer: round half to even. -/
def py_round_half_even (x : ℚ) : Int :=
  let f := ⌊x⌋
  let r := x - (f : ℚ)
  if r < 1 / 2 then f
  else if 1 / 2 < r then f + 1
  else if f % 2 = 0 then f else f + 1

/-- `_quantize`: `none` embeds the `ValueError` raised when `abs_tol <= 0`. -/
def quantize (x abs_tol : ℚ) : Option Int :=
  if abs_tol ≤ 0 then none else some (py_round_half_even (x / abs_tol))

structure FingerprintConfig where
  version : String := "event_fingerprint_v1"
  abs_tol : ℚ := 1 / 10000
  include_intermediate : Bool := true
  include_incoming : Bool := true
  include_weights : Bool := false
  include_graph : Bool := false
  include_process_id : Bool := false
deriving DecidableEq

/-- `_particle_key`: `(status, pdg_id, q(px), q(py), q(pz), q(energy))`,
as a list so that the lexicographic order of Python tuples is the list
order used for sorting below. -/
def particle_key (p : Particle) (abs_tol : ℚ) : Option (List Int) :=
  (quantize p.px abs_tol).bind fun qx =>
  (quantize p.py abs_tol).bind fun qy =>
  (quantize p.pz abs_tol).bind fun qz =>
  (quantize p.energy abs_tol).map fun qe =>
  [p.status, p.pdg_id, qx, qy, qz, qe]

/-- `_particle_graph_key`: `(barcode, vertex_barcode, end_vertex_barcode)`. -/
def particle_graph_key (p : Particle) : List Int :=
  [p.barcode, p.vertex_barcode, p.end_vertex_barcode]

/-- The projection of one particle that the fingerprint depends on:
its status (which drives the two skip rules), its quantised key and its
graph key. -/
structure PartProj where
  status : Int
  key : Option (List Int)
  graph : List Int
deriving DecidableEq

def particle_proj (abs_tol : ℚ) (p : Particle) : PartProj :=
  { status := p.status, key := particle_key p abs_tol, graph := particle_graph_key p }

def join_ints (k : List Int) : String := String.intercalate "," (k.map toString)

/-- The canonical byte string hashed by `fingerprint_event`, computed from
the particle projections, the weights and the process id.  `none` embeds a
`ValueError` raised by `_quantize` while the string is being assembled. -/
def fingerprint_payload_of (cfg : FingerprintConfig) (projs : List PartProj)
    (weights : List ℚ) (process_id : Int) : Option String :=
  let surv := projs.filter fun t =>
    !(t.status == 3) && (!(t.status == -1) || cfg.include_incoming) &&
      (!(t.status == 2) || cfg.include_intermediate)
  if surv.all (fun t => t.key.isSome) then
    let skeys := List.insertionSort (fun a b : List Int => a ≤ b) (surv.filterMap (fun t => t.key))
    let base := cfg.version ++ "\x00" ++
      (if cfg.include_process_id then toString process_id ++ "\x00" else "") ++
      String.join (skeys.map fun k => join_ints k ++ ";")
    let gpart :=
      if cfg.include_graph then
        let gkeys := List.insertionSort (fun a b : List Int => a ≤ b)
          ((projs.filter fun t => !(t.status == 3)).map (fun t => t.graph))
        "|g|" ++ String.join (gkeys.map fun k => join_ints k ++ ";")
      else ""
    if cfg.include_weights ∧ weights ≠ [] then
      if weights.all (fun w => (quantize w cfg.abs_tol).isSome) then
        some (base ++ gpart ++ "|w|" ++
          String.join (weights.map fun w => toString ((quantize w cfg.abs_tol).getD 0) ++ ","))
      else none
    else some (base ++ gpart)
  else none

def fingerprint_payload (ev : Event) (cfg : FingerprintConfig) : Option String :=
  fingerprint_payload_of cfg (ev.particles.map (particle_proj cfg.abs_tol))
    ev.weights ev.process_id

/-- `fingerprint_event(ev, cfg=cfg)`; `none` embeds the `ValueError` raised
when `cfg.abs_tol <= 0` and some value actually gets quantised. -/
def fingerprint_event (ev : Event) (cfg : FingerprintConfig) : Option String :=
  (fingerprint_payload ev cfg).map Sha256.sha256hex

/-! ## Loss accounting (`hepconduit/audit.py`) and the audit part of
`convert()` (`hepconduit/convert.py`)

The capability table `_CAPABILITIES` holds Python sets; they are embedded
as duplicate-free lists in the textual order of the source.  `loss_plan`
sorts each set difference, so the embedded plan is byte-identical to the
Python one.  The observer iterates Python sets whose order is
unspecified; every quantity it produces (per-field counters and
per-field example lists) is independent of that order, so the embedding
iterates the sorted plan lists. -/

structure Capabilities where
  particle_fields : List String
  event_fields : List String
  run_fields : List String

def format_capabilities : String → Capabilities
  | "lhe" =>
      { particle_fields := ["pdg_id", "status", "mother1", "mother2", "color1", "color2",
                            "px", "py", "pz", "energy", "mass", "spin"],
        event_fields := ["event_number", "weights", "process_id", "scale", "alpha_qed", "alpha_qcd"],
        run_fields := ["beam_pdg_id", "beam_energy", "weight_names", "processes",
                       "generator_name", "generator_version", "extra"] }
  | "hepmc3" =>
      { particle_fields := ["pdg_id", "status", "px", "py", "pz", "energy", "mass",
                            "barcode", "vertex_barcode", "end_vertex_barcode", "attributes"],
        event_fields := ["event_number", "weights", "extra"],
        run_fields := ["beam_pdg_id", "beam_energy", "weight_names",
                       "generator_name", "generator_version", "extra"] }
  | "csv" =>
      { particle_fields := ["pdg_id", "status", "mother1", "mother2", "color1", "color2",
                            "px", "py", "pz", "energy", "mass", "spin",
                            "barcode", "vertex_barcode", "end_vertex_barcode"],
        event_fields := ["event_number"],
        run_fields := [] }
  | "tsv" =>
      { particle_fields := ["pdg_id", "status", "mother1", "mother2", "color1", "color2",
                            "px", "py", "pz", "energy", "mass", "spin",
                            "barcode", "vertex_barcode", "end_vertex_barcode"],
        event_fields := ["event_number"],
        run_fields := [] }
  | "parquet" =>
      { particle_fields := ["pdg_id", "status", "mother1", "mother2", "color1", "color2",
                            "px", "py", "pz", "energy", "mass", "spin",
                            "barcode", "vertex_barcode", "end_vertex_barcode", "attributes"],
        event_fields := ["event_number", "weights", "process_id", "scale",
                         "alpha_qed", "alpha_qcd", "extra"],
        run_fields := ["beam_pdg_id", "beam_energy", "weight_names", "processes",
                       "generator_name", "generator_version", "extra"] }
  | _ => { particle_fields := [], event_fields := [], run_fields := [] }

structure LossPlan where
  input_format : String
  output_format : String
  dropped_particle_fields : List String
  dropped_event_fields : List String
  dropped_run_fields : List String
deriving DecidableEq

/-- `sorted(set(a) - set(b))`. -/
def sorted_diff (a b : List String) : List String :=
  List.insertionSort (fun x y : String => x ≤ y) (a.filter fun x => !(b.contains x))

def loss_plan (input_format output_format : String) : LossPlan :=
  let ic := format_capabilities input_format
  let oc := format_capabilities output_format
  { input_format := input_format,
    output_format := output_format,
    dropped_particle_fields := sorted_diff ic.particle_fields oc.particle_fields,
    dropped_event_fields := sorted_diff ic.event_fields oc.event_fields,
    dropped_run_fields := sorted_diff ic.run_fields oc.run_fields }

/-- One entry of `LossCounter.loss_examples`: `"event"` is always present,
`"particle_barcode"` only for particle-level examples. -/
structure LossExample where
  event : Int
  particle_barcode : Option Int := none
deriving DecidableEq

structure LossCounter where
  dropped_fields : List (String × Nat) := []
  dropped_weights : Nat := 0
  dropped_runinfo_keys : List (String × Nat) := []
  loss_examples : List (String × List LossExample) := []
deriving DecidableEq

/-- `_non_default` on an int/float value: `val != 0 and val != 0.0 and
val != 9.0` (note that `9.0` is treated as a default for every numeric
field, not only `spin`, and that Python's `9 == 9.0` holds). -/
def num_non_default (v : ℚ) : Bool := !(v == 0) && !(v == 9)

def int_non_default (v : Int) : Bool := !(v == 0) && !(v == 9)

/-- `_non_default(getattr(ev, field))` for the event-level field names that
occur in `_CAPABILITIES`; `none` embeds `hasattr(ev, field) == False`
(which cannot happen for those names, but keeps the embedding total). -/
def event_field_non_default (ev : Event) : String → Option Bool
  | "event_number" => some (int_non_default ev.event_number)
  | "weights" => some (!(ev.weights.length == 0))
  | "process_id" => some (int_non_default ev.process_id)
  | "scale" => some (num_non_default ev.scale)
  | "alpha_qed" => some (num_non_default ev.alpha_qed)
  | "alpha_qcd" => some (num_non_default ev.alpha_qcd)
  | "extra" => some (!(ev.extra.length == 0))
  | _ => none

/-- `_non_default(getattr(p, field))` for the particle-level field names
that occur in `_CAPABILITIES`. -/
def particle_field_non_default (p : Particle) : String → Option Bool
  | "pdg_id" => some (int_non_default p.pdg_id)
  | "status" => some (int_non_default p.status)
  | "mother1" => some (int_non_default p.mother1)
  | "mother2" => some (int_non_default p.mother2)
  | "color1" => some (int_non_default p.color1)
  | "color2" => some (int_non_default p.color2)
  | "px" => some (num_non_default p.px)
  | "py" => some (num_non_default p.py)
  | "pz" => some (num_non_default p.pz)
  | "energy" => some (num_non_default p.energy)
  | "mass" => some (num_non_default p.mass)
  | "spin" => some (num_non_default p.spin)
  | "barcode" => some (int_non_default p.barcode)
  | "vertex_barcode" => some (int_non_default p.vertex_barcode)
  | "end_vertex_barcode" => some (int_non_default p.end_vertex_barcode)
  | "attributes" => some (!(p.attributes.length == 0))
  | _ => none

/-- Increment `counter.dropped_fields[key]` (insert with count 1 when
absent, as the Python `dict.get(key, 0) + 1`). -/
def inc_dropped_field (key : String) (c : LossCounter) : LossCounter :=
  if (c.dropped_fields.lookup key).isSome then
    { c with dropped_fields := c.dropped_fields.map fun kv =>
        if kv.1 = key then (kv.1, kv.2 + 1) else kv }
  else
    { c with dropped_fields := c.dropped_fields ++ [(key, 1)] }

/-- `_record_example`: keep at most five examples per field class. -/
def record_example (key : String) (ex : LossExample) (c : LossCounter) : LossCounter :=
  match c.loss_examples.lookup key with
  | none => { c with loss_examples := c.loss_examples ++ [(key, [ex])] }
  | some lst =>
      if lst.length < 5 then
        { c with loss_examples := c.loss_examples.map fun kv =>
            if kv.1 = key then (kv.1, kv.2 ++ [ex]) else kv }
      else c

/-- The body of the `_wrapped` loop of `observe_losses` for one event. -/
def observe_event (plan : LossPlan) (c : LossCounter) (ev : Event) : LossCounter :=
  let c :=
    if plan.dropped_event_fields.contains "weights" && !(ev.weights.length == 0)
        && decide (ev.weights.length > 1) then
      { c with dropped_weights := c.dropped_weights + 1 }
    else c
  let c := plan.dropped_event_fields.foldl
    (fun c f =>
      if f = "weights" then c
      else
        match event_field_non_default ev f with
        | some true =>
            record_example ("event." ++ f) { event := ev.event_number }
              (inc_dropped_field ("event." ++ f) c)
        | _ => c)
    c
  ev.particles.foldl
    (fun c p =>
      plan.dropped_particle_fields.foldl
        (fun c f =>
          match particle_field_non_default p f with
          | some true =>
              record_example ("particle." ++ f)
                { event := ev.event_number, particle_barcode := some p.barcode }
                (inc_dropped_field ("particle." ++ f) c)
          | _ => c)
        c)
    c

/-- The counter state after the wrapped stream has been fully consumed. -/
def observe_losses (plan : LossPlan) (events : List Event) : LossCounter :=
  events.foldl (observe_event plan) {}

def loss_example_json (ex : LossExample) : Json :=
  Json.obj ([("event", Json.int ex.event)] ++
    match ex.particle_barcode with
    | some b => [("particle_barcode", Json.int b)]
    | none => [])

def loss_plan_json (p : LossPlan) : Json :=
  Json.obj
    [("input_format", Json.str p.input_format),
     ("output_format", Json.str p.output_format),
     ("dropped_particle_fields", Json.arr (p.dropped_particle_fields.map Json.str)),
     ("dropped_event_fields", Json.arr (p.dropped_event_fields.map Json.str)),
     ("dropped_run_fields", Json.arr (p.dropped_run_fields.map Json.str))]

def observed_json (c : LossCounter) : Json :=
  Json.obj
    [("dropped_fields", Json.obj (c.dropped_fields.map fun kv => (kv.1, Json.int kv.2))),
     ("dropped_weights", Json.int c.dropped_weights),
     ("dropped_runinfo_keys", Json.obj (c.dropped_runinfo_keys.map fun kv => (kv.1, Json.int kv.2))),
     ("loss_examples", Json.obj (c.loss_examples.map fun kv =>
        (kv.1, Json.arr (kv.2.map loss_example_json))))]

/-- `loss_hash(plan, counter)`: SHA-256 of the canonical JSON of the
payload `plan`/`observed`. -/
def loss_hash (plan : LossPlan) (counter : LossCounter) : String :=
  Sha256.sha256hex (stable_json_dumps
    (Json.obj [("plan", loss_plan_json plan), ("observed", observed_json counter)]))

/-- The audit-relevant slice of the conversion report assembled by
`convert()` (`convert.py`, lines 128-179).  The timeline of the source is
kept explicitly:

* `loss_hash` is computed at line 144, before `writer.write` consumes the
  observed stream, so it sees the freshly created (empty) counter;
* the report dictionary is built at lines 157-168; its `dropped_fields`,
  `dropped_runinfo_keys` and `loss_examples` entries alias the counter's
  mutable dictionaries, hence they show the final counts once the write
  at line 179 has drained the stream, while `dropped_weights_events`
  copies the `int` value the counter holds at build time (zero). -/
structure ConvReport where
  loss_plan : LossPlan
  dropped_fields : List (String × Nat)
  dropped_weights_events : Nat
  dropped_runinfo_keys : List (String × Nat)
  loss_examples : List (String × List LossExample)
  loss_hash : String
deriving DecidableEq

def convert_audit (input_format output_format : String) (events : List Event) : ConvReport :=
  let plan := loss_plan input_format output_format
  let pre : LossCounter := {}
  let lhash := loss_hash plan pre
  let final := observe_losses plan events
  { loss_plan := plan,
    dropped_fields := final.dropped_fields,
    dropped_weights_events := pre.dropped_weights,
    dropped_runinfo_keys := final.dropped_runinfo_keys,
    loss_examples := final.loss_examples,
    loss_hash := lhash }

/-- The hash the claim asserts the report carries: SHA-256 of the canonical
JSON of the report's plan together with its observed loss counts as they
stand in the final report.  (Stated from the claim, for comparison with
`convert_audit`.) -/
def loss_hash_of_final_report (r : ConvReport) : String :=
  loss_hash r.loss_plan
    { dropped_fields := r.dropped_fields,
      dropped_weights := r.dropped_weights_events,
      dropped_runinfo_keys := r.dropped_runinfo_keys,
      loss_examples := r.loss_examples }

/-! ## LHE event-block parser (`hepconduit/io/lhe.py`, `_parse_event_block`)

`iter_lhe` buffers the lines between `<event>` and `</event>` and hands
them to `_parse_event_block`.  The numeric conversions in that function are
bare `int(...)` / `float(...)` calls; the `ValueError` (or `IndexError` on
a short row) one of them may raise propagates out of the parser and is
embedded as `none`.  Note the particle loop of the source: a blank or
comment line among the particle rows executes `i -= 1; continue`, but
reassigning the loop variable of a Python `for` has no effect, so such a
line still consumes one of the `nup` iterations; the embedding reproduces
that. -/

/-- Digit run to `Nat`; `none` when empty or a non-digit occurs. -/
def digits_to_nat : List Char → Option Nat
  | [] => none
  | cs => cs.foldl (fun acc c =>
      acc.bind fun a => if c.isDigit then some (a * 10 + (c.toNat - 48)) else none) (some 0)

/-- Python `int(s)` on an already-stripped token: optional sign, digits. -/
def parse_py_int (s : String) : Option Int :=
  match s.data with
  | '+' :: rest => (digits_to_nat rest).map fun n => (n : Int)
  | '-' :: rest => (digits_to_nat rest).map fun n => -(n : Int)
  | cs => (digits_to_nat cs).map fun n => (n : Int)

/-- Split a character list at the first `e`/`E` (exponent marker). -/
def split_exponent : List Char → List Char × Option (List Char)
  | [] => ([], none)
  | c :: cs =>
      if c = 'e' ∨ c = 'E' then ([], some cs)
      else
        let r := split_exponent cs
        (c :: r.1, r.2)

/-- Split a character list at the first dot. -/
def split_dot : List Char → List Char × Option (List Char)
  | [] => ([], none)
  | c :: cs =>
      if c = '.' then ([], some cs)
      else
        let r := split_dot cs
        (c :: r.1, r.2)

/-- Digit run to `Nat`, allowing the empty run (value 0). -/
def digits_to_nat_opt_empty : List Char → Option Nat
  | cs => cs.foldl (fun acc c =>
      acc.bind fun a => if c.isDigit then some (a * 10 + (c.toNat - 48)) else none) (some 0)

def pow10 (e : Int) : ℚ :=
  if 0 ≤ e then ((10 : ℚ) ^ e.toNat) else 1 / ((10 : ℚ) ^ (-e).toNat)

/-- Unsigned decimal mantissa `digits[.digits]`; at least one digit overall. -/
def parse_mantissa (cs : List Char) : Option ℚ :=
  let ip := split_dot cs
  match ip.2 with
  | none =>
      (digits_to_nat ip.1).map fun n => (n : ℚ)
  | some frac =>
      if ip.1.length + frac.length = 0 then none
      else
        (digits_to_nat_opt_empty ip.1).bind fun n =>
        (digits_to_nat_opt_empty frac).map fun f =>
        (n : ℚ) + (f : ℚ) / (10 : ℚ) ^ frac.length

/-- Optionally signed integer exponent. -/
def parse_exponent : List Char → Option Int
  | '+' :: rest => (digits_to_nat rest).map fun n => (n : Int)
  | '-' :: rest => (digits_to_nat rest).map fun n => -(n : Int)
  | cs => (digits_to_nat cs).map fun n => (n : Int)

/-- Python `float(s)` on an already-stripped token, for the finite decimal
grammar `[+-]? digits[.digits] [eE [+-]? digits]?` (the code never feeds
the parser `inf`/`nan` spellings; every malformed token is rejected by
`float` and by this embedding alike). -/
def parse_py_float (s : String) : Option ℚ :=
  let signed :=
    match s.data with
    | '+' :: rest => some (1, rest)
    | '-' :: rest => some (-1, rest)
    | cs => some ((1 : Int), cs)
  signed.bind fun sc =>
  let me := split_exponent sc.2
  (parse_mantissa me.1).bind fun m =>
  (match me.2 with
   | none => some (0 : Int)
   | some ecs => parse_exponent ecs).map fun e =>
  (sc.1 : ℚ) * m * pow10 e

/-- The ASCII whitespace of the inputs (`str.split`/`str.strip` treat a
few more Unicode spaces as whitespace; none occur in event files). -/
def is_py_space (c : Char) : Bool := c == ' ' || c == '\t' || c == '\n' || c == '\r'

def drop_leading_ws : List Char → List Char
  | [] => []
  | c :: cs => if is_py_space c then drop_leading_ws cs else c :: cs

/-- `s.strip()`. -/
def py_strip (s : String) : String :=
  String.mk ((drop_leading_ws (drop_leading_ws s.data).reverse).reverse)

def split_ws_aux : List Char → List Char → List String
  | [], cur => if cur.isEmpty then [] else [String.mk cur.reverse]
  | c :: cs, cur =>
      if is_py_space c then
        if cur.isEmpty then split_ws_aux cs []
        else String.mk cur.reverse :: split_ws_aux cs []
      else split_ws_aux cs (c :: cur)

/-- Python `str.split()` (split on whitespace runs, drop empty pieces). -/
def py_split (s : String) : List String := split_ws_aux s.data []

/-- `s.startswith(pre)`. -/
def py_startswith (s pre : String) : Bool := pre.data.isPrefixOf s.data

/-- Scan for the first non-blank non-comment line (the event header),
returning it stripped together with the remaining lines. -/
def header_scan : List String → Option (String × List String)
  | [] => none
  | l :: ls =>
      let s := py_strip l
      if s = "" ∨ py_startswith s "#" then header_scan ls else some (s, ls)

/-- `float(cols[i])` guarded by `len(cols) > i`, with a default. -/
def float_col_or (cols : List String) (i : Nat) (dflt : ℚ) : Option ℚ :=
  match cols.get? i with
  | some c => parse_py_float c
  | none => some dflt

/-- `int(cols[i])`: the index access and the conversion may both raise. -/
def int_col (cols : List String) (i : Nat) : Option Int :=
  (cols.get? i).bind parse_py_int

/-- `float(cols[i])`: the index access and the conversion may both raise. -/
def float_col (cols : List String) (i : Nat) : Option ℚ :=
  (cols.get? i).bind parse_py_float

/-- One 13-column particle row.  `none` embeds the `ValueError`/`IndexError`
of the bare conversions. -/
def parse_particle_line (s : String) : Option Particle :=
  let cols := py_split s
  match int_col cols 0 with
  | none => none
  | some pdg_id =>
  match int_col cols 1 with
  | none => none
  | some status =>
  match int_col cols 2 with
  | none => none
  | some mother1 =>
  match int_col cols 3 with
  | none => none
  | some mother2 =>
  match int_col cols 4 with
  | none => none
  | some color1 =>
  match int_col cols 5 with
  | none => none
  | some color2 =>
  match float_col cols 6 with
  | none => none
  | some px =>
  match float_col cols 7 with
  | none => none
  | some py =>
  match float_col cols 8 with
  | none => none
  | some pz =>
  match float_col cols 9 with
  | none => none
  | some energy =>
  match float_col cols 10 with
  | none => none
  | some mass =>
  match float_col_or cols 12 9 with
  | none => none
  | some spin =>
  some { pdg_id := pdg_id, status := status, mother1 := mother1, mother2 := mother2,
         color1 := color1, color2 := color2, px := px, py := py, pz := pz,
         energy := energy, mass := mass, spin := spin }

/-- The particle loop: `for i in range(nup)`; each iteration consumes one
line when available, skipping blank/comment lines (which still use up the
iteration, see the module comment), breaking when the lines run out. -/
def particle_loop : Nat → List String → Option (List Particle)
  | 0, _ => some []
  | _ + 1, [] => some []
  | n + 1, l :: ls =>
      let s := py_strip l
      if s = "" ∨ py_startswith s "#" then particle_loop n ls
      else
        (parse_particle_line s).bind fun p =>
        (particle_loop n ls).map fun ps => p :: ps

/-- `_parse_event_block(lines, event_number)`; `none` embeds a raised
`ValueError`/`IndexError`. -/
def parse_event_block (lines : List String) (event_number : Int) : Option Event :=
  match header_scan lines with
  | none => some { event_number := event_number }
  | some hr =>
  let hp := py_split hr.1
  match int_col hp 0 with
  | none => none
  | some nup =>
  match (if hp.length > 1 then int_col hp 1 else some 0) with
  | none => none
  | some process_id =>
  match (if hp.length > 2 then float_col hp 2 else some 1) with
  | none => none
  | some weight =>
  match (if hp.length > 3 then float_col hp 3 else some 0) with
  | none => none
  | some scale =>
  match (if hp.length > 4 then float_col hp 4 else some 0) with
  | none => none
  | some aqed =>
  match (if hp.length > 5 then float_col hp 5 else some 0) with
  | none => none
  | some aqcd =>
  match particle_loop nup.toNat hr.2 with
  | none => none
  | some particles =>
  some { event_number := event_number,
         particles := particles,
         process_id := process_id,
         scale := scale,
         alpha_qed := aqed,
         alpha_qcd := aqcd,
         weights := [weight],
         n_particles := nup }

/-! ## HepMC3 `P` records (`hepconduit/io/hepmc3.py`, lines 180-231)

The reader maps raw HepMC status codes into the internal convention
(`4 -> -1`, `1 -> 1`, `2,3 -> 2`, everything else unchanged) and sets
`attributes["hepmc_status_raw"]` only when the mapping changed the code.
A `P` line that is too short or fails a numeric conversion is skipped
(`continue`), embedded as `none`. -/

def hepmc_map_status (st : Int) : Int :=
  if st = 4 then -1
  else if st = 1 then 1
  else if st = 2 ∨ st = 3 then 2
  else st

/-- Particle construction of the `P` branch, after the numeric fields have
been read. -/
def particle_from_p (bc pdg st : Int) (px py pz e m : ℚ) (pv ev : Int) : Particle :=
  let mapped := hepmc_map_status st
  { pdg_id := pdg, status := mapped, px := px, py := py, pz := pz, energy := e,
    mass := m, barcode := bc, vertex_barcode := pv, end_vertex_barcode := ev,
    attributes := if mapped = st then [] else [("hepmc_status_raw", st)] }

/-- The full `P` branch on one (already dispatched) line. -/
def parse_p_line (line : String) : Option Particle :=
  let parts := py_split (py_strip line)
  if parts.getD 0 "" ≠ "P" then none
  else if parts.length < 9 then none
  else
  match int_col parts 1 with
  | none => none
  | some bc =>
  match int_col parts 2 with
  | none => none
  | some pdg =>
  match int_col parts 3 with
  | none => none
  | some st =>
  match float_col parts 4 with
  | none => none
  | some px =>
  match float_col parts 5 with
  | none => none
  | some py =>
  match float_col parts 6 with
  | none => none
  | some pz =>
  match float_col parts 7 with
  | none => none
  | some e =>
  match float_col parts 8 with
  | none => none
  | some m =>
  let pvev : Int × Int :=
    if parts.length ≥ 11 then
      match int_col parts 9, int_col parts 10 with
      | some a, some b => (a, b)
      | _, _ => (0, 0)
    else (0, 0)
  some (particle_from_p bc pdg st px py pz e m pvev.1 pvev.2)

/-! ## Vertex reconstruction

Two near-duplicate implementations of `_build_vertices_from_mothers` exist
in the source: one in `hepconduit/io/hepmc3.py` (lines 260-335, used by the
HepMC3 writer) and one in `hepconduit/io/parquet.py` (lines 100-146, used
by the Parquet reader).  Both are embedded below.  Python dictionaries are
embedded as association lists in insertion order.  The only place
CPython's set iteration order leaks into the output is the order of
appends into a vertex's `incoming` list in the HepMC3 copy (iteration over
the two-element set of mother indices); the embedding iterates ascending,
and no theorem below depends on that order. -/

structure VtxState where
  vtx_map : List ((Int × Int) × Int) := []
  next_vtx : Int := -1
  vertices : List (Int × Vertex) := []

/-- Canonicalised mother pair.  (The `m1 == 0 and m2 == 0` special case of
both sources produces the key `(0, 0)`, which sorting yields as well.) -/
def vtx_key (m1 m2 : Int) : Int × Int := if m1 ≤ m2 then (m1, m2) else (m2, m1)

/-- `_vtx_for`: look up or create the vertex of a canonicalised mother
pair; new vertices take the running negative counter. -/
def vtx_for (st : VtxState) (m1 m2 : Int) : Int × VtxState :=
  let key := vtx_key m1 m2
  match st.vtx_map.lookup key with
  | some v => (v, st)
  | none =>
      (st.next_vtx,
       { vtx_map := st.vtx_map ++ [(key, st.next_vtx)],
         next_vtx := st.next_vtx - 1,
         vertices := st.vertices ++ [(st.next_vtx, { barcode := st.next_vtx })] })

/-- Assign `1..N` to particles whose barcode is falsy (zero). -/
def assign_barcodes (ps : List Particle) : List Particle :=
  ps.enum.map fun ip => if ip.2.barcode = 0 then { ip.2 with barcode := (ip.1 : Int) + 1 } else ip.2

def upd_vertex (vs : List (Int × Vertex)) (vid : Int) (f : Vertex → Vertex) :
    List (Int × Vertex) :=
  vs.map fun kv => if kv.1 = vid then (kv.1, f kv.2) else kv

def add_incoming_bc (b : Int) (v : Vertex) : Vertex :=
  if v.incoming.contains b then v else { v with incoming := v.incoming ++ [b] }

def add_outgoing_bc (b : Int) (v : Vertex) : Vertex :=
  if v.outgoing.contains b then v else { v with outgoing := v.outgoing ++ [b] }

/-- `vertices[k] for k in sorted(vertices.keys())`. -/
def sort_vertices (vs : List (Int × Vertex)) : List Vertex :=
  (List.insertionSort (fun a b : Int × Vertex => a.1 ≤ b.1) vs).map fun kv => kv.2

/-- HepMC3 copy, production-vertex pass: incoming particles (status `-1`)
get vertex 0; every other particle gets the vertex of its mother pair. -/
def hepmc3_assign_prod : List Particle → VtxState → List Particle × VtxState
  | [], st => ([], st)
  | p :: ps, st =>
      if p.status = -1 then
        let r := hepmc3_assign_prod ps st
        ({ p with vertex_barcode := 0 } :: r.1, r.2)
      else
        let vs := vtx_for st p.mother1 p.mother2
        let r := hepmc3_assign_prod ps vs.2
        ({ p with vertex_barcode := vs.1 } :: r.1, r.2)

/-- The `set(m1, m2) - set(0)` iteration of the HepMC3 copy, as an
ascending duplicate-free list. -/
def mother_indices (p : Particle) : List Int :=
  if p.mother1 = p.mother2 then [p.mother1].filter fun m => m ≠ 0
  else if p.mother1 < p.mother2 then [p.mother1, p.mother2].filter fun m => m ≠ 0
  else [p.mother2, p.mother1].filter fun m => m ≠ 0

/-- HepMC3 copy, incoming/outgoing fill pass. -/
def hepmc3_fill_vertices (all_ps : List Particle) (vs : List (Int × Vertex)) :
    List (Int × Vertex) :=
  all_ps.foldl
    (fun vs p =>
      if p.vertex_barcode = 0 then vs
      else
        let vs := (mother_indices p).foldl
          (fun vs midx =>
            if 1 ≤ midx ∧ midx ≤ (all_ps.length : Int) then
              match all_ps.get? (midx - 1).toNat with
              | some mp => upd_vertex vs p.vertex_barcode (add_incoming_bc mp.barcode)
              | none => vs
            else vs)
          vs
        upd_vertex vs p.vertex_barcode (add_outgoing_bc p.barcode))
    vs

def set_assoc (l : List (Int × Int)) (k v : Int) : List (Int × Int) :=
  if (l.lookup k).isSome then l.map (fun kv => if kv.1 = k then (k, v) else kv)
  else l ++ [(k, v)]

/-- `incoming_to_vtx`: last writer wins, dictionaries iterated in insertion
order. -/
def incoming_to_vtx (vs : List (Int × Vertex)) : List (Int × Int) :=
  vs.foldl (fun m kv => kv.2.incoming.foldl (fun m inc => set_assoc m inc kv.1) m) []

/-- `_build_vertices_from_mothers` of `hepconduit/io/hepmc3.py`. -/
def hepmc3_build_vertices (ev : Event) : Event :=
  if ev.vertices ≠ [] then ev
  else
    let ps0 := assign_barcodes ev.particles
    let ar := hepmc3_assign_prod ps0 {}
    let vs := hepmc3_fill_vertices ar.1 ar.2.vertices
    let itv := incoming_to_vtx vs
    let ps := ar.1.map fun p => { p with end_vertex_barcode := (itv.lookup p.barcode).getD 0 }
    { ev with particles := ps, vertices := sort_vertices vs }

/-- Parquet copy, assignment pass: every particle (incoming ones included)
gets the vertex of its mother pair, and is appended to that vertex's
`outgoing`. -/
def parquet_assign : List Particle → VtxState → List Particle × VtxState
  | [], st => ([], st)
  | p :: ps, st =>
      let vs := vtx_for st p.mother1 p.mother2
      let st1 := { vs.2 with
        vertices := upd_vertex vs.2.vertices vs.1 fun v =>
          { v with outgoing := v.outgoing ++ [p.barcode] } }
      let r := parquet_assign ps st1
      ({ p with vertex_barcode := vs.1 } :: r.1, r.2)

/-- Parquet copy, linking pass: fills `incoming` and the mothers'
`end_vertex_barcode` (positional mutation of the particle list). -/
def parquet_link (all_ps : List Particle) (vs : List (Int × Vertex)) :
    List Particle × List (Int × Vertex) :=
  all_ps.foldl
    (fun acc p =>
      let vtx := p.vertex_barcode
      if vtx = 0 then acc
      else
        [p.mother1, p.mother2].foldl
          (fun acc midx =>
            if midx ≠ 0 ∧ 1 ≤ midx ∧ midx ≤ (all_ps.length : Int) then
              match acc.1.get? (midx - 1).toNat with
              | some cur =>
                  (acc.1.set (midx - 1).toNat { cur with end_vertex_barcode := vtx },
                   upd_vertex acc.2 vtx fun v => { v with incoming := v.incoming ++ [cur.barcode] })
              | none => acc
            else acc)
          acc)
    (all_ps, vs)

/-- `sorted(set(l))`. -/
def sorted_dedup (l : List Int) : List Int :=
  List.insertionSort (fun a b : Int => a ≤ b) l.dedup

/-- `_build_vertices_from_mothers` of `hepconduit/io/parquet.py`. -/
def parquet_build_vertices (ev : Event) : Event :=
  if ev.vertices ≠ [] then ev
  else
    let ps0 := assign_barcodes ev.particles
    let ar := parquet_assign ps0 {}
    let lk := parquet_link ar.1 ar.2.vertices
    let vs := lk.2.map fun kv =>
      (kv.1, { kv.2 with incoming := sorted_dedup kv.2.incoming,
                         outgoing := sorted_dedup kv.2.outgoing })
    { ev with particles := lk.1, vertices := sort_vertices vs }

/-! ## Validator (`hepconduit/validation.py`, `validate_event`)

Issue messages are embedded as tags (the Python messages are formatted
strings whose content the claims do not touch).  The PDG check delegates
to the `pdg` service exactly as the source does (`pdg_module.is_valid_pdg_id`,
which returns `True` for everything when the optional `particle` package is
absent); the embedding takes that predicate as a parameter.

The mass check compares `computed_mass` (which involves a real square
root) against the stored mass.  The embedding expresses the comparison
`|computed_mass - m| > c` with `c = mass_tolerance * max(|m|, 1e-12) > 0`
equivalently without square roots, using that for `a >= 0`:
`sqrt a > b` iff `b < 0` or `b^2 < a`, and `sqrt a < b` iff `0 <= b` and
`a < b^2`; this keeps the check decidable over `ℚ` while agreeing with
the real-arithmetic condition of the source. -/

inductive VLevel where
  | error
  | warning
deriving DecidableEq

inductive VMsg where
  | no_particles
  | unknown_pdg (pdg : Int)
  | negative_energy
  | mass_inconsistency
  | momentum_noncons (j : Fin 4)
deriving DecidableEq

structure VIssue where
  level : VLevel
  event_number : Int
  particle_index : Option Nat
  msg : VMsg
deriving DecidableEq

/-- `sqrt a > b`, for `a >= 0`, without the square root. -/
def sqrt_gt (a b : ℚ) : Bool := decide (b < 0) || decide (b ^ 2 < a)

/-- `sqrt a < b`, for `a >= 0`, without the square root. -/
def sqrt_lt (a b : ℚ) : Bool := decide (0 ≤ b) && decide (a < b ^ 2)

/-- `computed_mass`'s clamp: `m2 = 0` when `-1e-8 < m2 < 0`. -/
def clamp_m2 (m2 : ℚ) : ℚ := if m2 < 0 ∧ |m2| < 1 / 100000000 then 0 else m2

/-- `|computed_mass - m| > c` where `computed_mass = sign(m2) * sqrt |m2|`. -/
def mass_dev_gt (m2 m c : ℚ) : Bool :=
  if 0 ≤ m2 then sqrt_gt m2 (m + c) || sqrt_lt m2 (m - c)
  else sqrt_lt (-m2) (-(m + c)) || sqrt_gt (-m2) (-(m - c))

/-- The mass-consistency branch for one particle. -/
def mass_check_triggers (p : Particle) (mass_tolerance : ℚ) : Bool :=
  if p.mass = 0 then false
  else if |p.mass| < 1 / 1000 then false
  else
    let m2 := clamp_m2 (p.energy ^ 2 - p.px ^ 2 - p.py ^ 2 - p.pz ^ 2)
    mass_dev_gt m2 p.mass (mass_tolerance * max |p.mass| (1 / 10 ^ 12))

/-- The four summed components, in the order `px, py, pz, E` of the source. -/
def four_comp (j : Fin 4) (p : Particle) : ℚ :=
  match j.val with
  | 0 => p.px
  | 1 => p.py
  | 2 => p.pz
  | _ => p.energy

def sum_comp (ps : List Particle) (j : Fin 4) : ℚ := (ps.map (four_comp j)).sum

/-- `validate_event` with its four toggles and two tolerances. -/
def validate_event (pdg_valid : Int → Bool)
    (check_momentum check_pdg check_energy check_mass : Bool)
    (momentum_tolerance mass_tolerance : ℚ) (event : Event) : List VIssue :=
  if event.particles = [] then
    [{ level := .warning, event_number := event.event_number, particle_index := none,
       msg := .no_particles }]
  else
    let pdg_issues :=
      if check_pdg then
        event.particles.enum.filterMap fun ip =>
          if pdg_valid ip.2.pdg_id then none
          else some { level := .warning, event_number := event.event_number,
                      particle_index := some ip.1, msg := .unknown_pdg ip.2.pdg_id }
      else []
    let energy_issues :=
      if check_energy then
        event.particles.enum.filterMap fun ip =>
          if ip.2.energy < 0 then
            some { level := .error, event_number := event.event_number,
                   particle_index := some ip.1, msg := .negative_energy }
          else none
      else []
    let mass_issues :=
      if check_mass then
        event.particles.enum.filterMap fun ip =>
          if mass_check_triggers ip.2 mass_tolerance then
            some { level := .warning, event_number := event.event_number,
                   particle_index := some ip.1, msg := .mass_inconsistency }
          else none
      else []
    let momentum_issues :=
      if check_momentum then
        let incoming := event.particles.filter fun p => p.status == -1
        let outgoing := event.particles.filter fun p => p.status == 1
        if incoming ≠ [] ∧ outgoing ≠ [] then
          let total := max |sum_comp incoming 3| (max |sum_comp outgoing 3| (1 / 10 ^ 10))
          (List.finRange 4).filterMap fun j =>
            if momentum_tolerance < |sum_comp incoming j - sum_comp outgoing j| / total then
              some { level := .error, event_number := event.event_number,
                     particle_index := none, msg := .momentum_noncons j }
            else none
        else []
      else []
    pdg_issues ++ energy_issues ++ mass_issues ++ momentum_issues

/-! ## Filter validator (`hepconduit/filtering.py`, `_validate_ast`)

The expression AST of `ast.parse(expr, mode="eval")` is embedded with one
constructor per expression node kind plus the operator kind enumerations
(membership of an operator node in `ALLOWED_NODES` depends on its kind).
`_validate_ast` raises `UnsafeFilterExpression` when some walked node is
not allowed, when a `Name` starts with two underscores, or when a call is
not a plain call of an allowed function; the embedding returns `false`
exactly when the walk would raise.  (An `import` cannot occur at all: it
is a statement, which already fails `ast.parse` in `eval` mode and is
reported through the same exception type.) -/

inductive BoolOpKind where
  | andOp
  | orOp
deriving DecidableEq

inductive BinOpKind where
  | add
  | sub
  | mult
  | div
  | floorDiv
  | mod
  | pow
  | lshift
  | rshift
  | bitOr
  | bitXor
  | bitAnd
  | matMult
deriving DecidableEq

inductive UnaryOpKind where
  | usub
  | uadd
  | notOp
  | invert
deriving DecidableEq

inductive CmpOpKind where
  | eq
  | ne
  | lt
  | le
  | gt
  | ge
  | isOp
  | isNotOp
  | inOp
  | notInOp
deriving DecidableEq

inductive PyExpr where
  | name (id : String)
  | constant
  | boolOp (op : BoolOpKind) (values : List PyExpr)
  | binOp (left : PyExpr) (op : BinOpKind) (right : PyExpr)
  | unaryOp (op : UnaryOpKind) (operand : PyExpr)
  | compare (left : PyExpr) (ops : List CmpOpKind) (comparators : List PyExpr)
  | call (func : PyExpr) (args : List PyExpr)
  | attribute (value : PyExpr) (attr : String)
  | subscript (value : PyExpr) (index : PyExpr)

/-- Operator kinds whose node types appear in `ALLOWED_NODES`. -/
def bin_op_allowed : BinOpKind → Bool
  | .add | .sub | .mult | .div | .floorDiv | .mod | .pow => true
  | _ => false

def unary_op_allowed : UnaryOpKind → Bool
  | .usub | .uadd | .notOp => true
  | .invert => false

def cmp_op_allowed : CmpOpKind → Bool
  | .eq | .ne | .lt | .le | .gt | .ge => true
  | _ => false

/-- `ALLOWED_FUNCS.keys()`. -/
def allowed_funcs : List String := ["abs", "min", "max", "round", "sqrt", "log", "exp"]

mutual

/-- `_validate_ast` does not raise on this expression. -/
def validate_expr : PyExpr → Bool
  | .name id => !(py_startswith id "__")
  | .constant => true
  | .boolOp _ vs => validate_expr_list vs
  | .binOp l op r => bin_op_allowed op && validate_expr l && validate_expr r
  | .unaryOp op e => unary_op_allowed op && validate_expr e
  | .compare l ops rs => ops.all cmp_op_allowed && validate_expr l && validate_expr_list rs
  | .call f args =>
      (match f with
       | .name id => !(py_startswith id "__") && allowed_funcs.contains id
       | _ => false) &&
      validate_expr_list args
  | .attribute _ _ => false
  | .subscript _ _ => false
termination_by structural e => e

def validate_expr_list : List PyExpr → Bool
  | [] => true
  | e :: es => validate_expr e && validate_expr_list es
termination_by structural l => l

end

mutual

/-- The expression contains an attribute access, an indexing, or an
identifier beginning with two underscores. -/
def has_banned : PyExpr → Bool
  | .name id => py_startswith id "__"
  | .constant => false
  | .boolOp _ vs => has_banned_list vs
  | .binOp l _ r => has_banned l || has_banned r
  | .unaryOp _ e => has_banned e
  | .compare l _ rs => has_banned l || has_banned_list rs
  | .call f args => has_banned f || has_banned_list args
  | .attribute _ _ => true
  | .subscript _ _ => true
termination_by structural e => e

def has_banned_list : List PyExpr → Bool
  | [] => false
  | e :: es => has_banned e || has_banned_list es
termination_by structural l => l

end

/-! ## Perturbation of one four-momentum component (for the fingerprint
tolerance claims) -/

inductive FourComp where
  | px
  | py
  | pz
  | energy
deriving DecidableEq

def comp_get (c : FourComp) (p : Particle) : ℚ :=
  match c with
  | .px => p.px
  | .py => p.py
  | .pz => p.pz
  | .energy => p.energy

def comp_add (c : FourComp) (d : ℚ) (p : Particle) : Particle :=
  match c with
  | .px => { p with px := p.px + d }
  | .py => { p with py := p.py + d }
  | .pz => { p with pz := p.pz + d }
  | .energy => { p with energy := p.energy + d }

/-- Add `d` to one component of the particle at position `i`. -/
def perturb_at (ev : Event) (i : Nat) (c : FourComp) (d : ℚ) : Event :=
  match ev.particles.get? i with
  | some p => { ev with particles := ev.particles.set i (comp_add c d p) }
  | none => ev

/-! ## Concrete inputs used by the individual claims -/

/-- C1: one event whose non-default `process_id` is dropped by an
LHE-to-CSV conversion. -/
def c1_event : Event := { process_id := 1 }

/-- C2: an event block whose second particle row has a malformed `px`
column (`xyz`). -/
def c2_block : List String :=
  [" 2 1 1.0 100.0 0.0078 0.118",
   " 2 -1 0 0 0 0 0 0 6500.0 6500.0 0 0 9",
   " 11 1 1 2 0 0 xyz 0 0 6500.0 0 0 9"]

/-- C3: an event block with `<weights>` and `<rwgt>` sub-blocks (two inner
entries each) and a trailing token. -/
def c3_block : List String :=
  ["2 1 1.0 100.0 0.0078 0.118",
   "2 -1 0 0 0 0 0.0 0.0 6500.0 6500.0 0.0 0 9",
   "-2 1 1 1 0 0 0.0 0.0 -6500.0 6500.0 0.0 0 9",
   "<weights>",
   "<weight id=\"nominal\">1.0</weight>",
   "<weight id=\"pdf_alt\">0.98</weight>",
   "</weights>",
   "<rwgt>",
   "<wgt id=\"mur=0.5_muf=0.5\">1.01</wgt>",
   "<wgt id=\"mur=2.0_muf=2.0\">0.99</wgt>",
   "</rwgt>",
   "some_generator_token"]

/-- C4: a vertexless event whose only particle is incoming (status `-1`)
with no mothers. -/
def c4_event : Event :=
  { particles := [{ pdg_id := 2212, status := -1, px := 0, py := 0, pz := 1, energy := 1 }] }

/-- C5: a `P` record whose raw status code `11` is outside `1..4`. -/
def c5_line : String := "P 1 11 11 0 0 0 1 0 0 0"

/-- C6: an event with one outgoing particle and no incoming particle; the
momentum-imbalance formula fires on the `px` component. -/
def c6_event : Event :=
  { event_number := 5,
    particles := [{ pdg_id := 11, status := 1, px := 1, py := 0, pz := 0, energy := 1 }] }

/-- C7 counterexample: `px = 4e-5` sits in quantisation bucket 0 at the
default `abs_tol = 1e-4`; adding `d = 2e-5 < abs_tol / 2` moves it across
the half-integer boundary into bucket 1. -/
def c7_event : Event :=
  { particles := [{ pdg_id := 11, status := 1, px := 1 / 25000, py := 0, pz := 0, energy := 1 }] }

/-- C7 witness: `px = 0`; adding `d = 1e-5` keeps bucket 0. -/
def c7w_event : Event :=
  { particles := [{ pdg_id := 11, status := 1, px := 0, py := 0, pz := 0, energy := 1 }] }

/-- C8 witness: two distinguishable particles, listed in both orders. -/
def c8_particles : List Particle :=
  [{ pdg_id := 11, status := 1, px := 1, py := 0, pz := 0, energy := 1 },
   { pdg_id := -11, status := 1, px := 0, py := 1, pz := 0, energy := 2 }]

def c8_event : Event := { particles := c8_particles }

/-- C9 counterexample: `_x > 0`, an expression containing an identifier
that begins with a (single) underscore. -/
def c9_expr : PyExpr := .compare (.name "_x") [.gt] [.constant]

/-! ## Shared lemmas -/

set_option maxRecDepth 400000
set_option maxHeartbeats 10000000

theorem perm_all {α : Type} {l₁ l₂ : List α} (h : List.Perm l₁ l₂) (f : α → Bool) :
    l₁.all f = l₂.all f := by
  rw [Bool.eq_iff_iff]
  simp only [List.all_eq_true]
  exact ⟨fun H x hx => H x (h.mem_iff.mpr hx), fun H x hx => H x (h.mem_iff.mp hx)⟩

theorem insertionSort_eq_of_perm {α : Type} [LinearOrder α] {l₁ l₂ : List α}
    (h : List.Perm l₁ l₂) :
    List.insertionSort (fun a b => a ≤ b) l₁ = List.insertionSort (fun a b => a ≤ b) l₂ :=
  List.eq_of_perm_of_sorted
    ((List.perm_insertionSort _ l₁).trans (h.trans (List.perm_insertionSort _ l₂).symm))
    (List.sorted_insertionSort _ l₁) (List.sorted_insertionSort _ l₂)

/-- The hashed payload only depends on the multiset of particle
projections (every particle-derived list is sorted before being fed to the
hash). -/
theorem fingerprint_payload_of_perm (cfg : FingerprintConfig) {p₁ p₂ : List PartProj}
    (h : List.Perm p₁ p₂) (w : List ℚ) (pid : Int) :
    fingerprint_payload_of cfg p₁ w pid = fingerprint_payload_of cfg p₂ w pid := by
  unfold fingerprint_payload_of
  have hs := h.filter (fun t =>
    !(t.status == 3) && (!(t.status == -1) || cfg.include_incoming) &&
      (!(t.status == 2) || cfg.include_intermediate))
  have hall := perm_all hs (fun t => t.key.isSome)
  have hkeys := insertionSort_eq_of_perm (hs.filterMap (fun t => t.key))
  have hg := insertionSort_eq_of_perm
    ((h.filter (fun t => !(t.status == 3))).map (fun t => t.graph))
  simp only [hall, hkeys, hg]

theorem set_of_get?_eq {α : Type} : ∀ (l : List α) (i : Nat) (a : α),
    l.get? i = some a → l.set i a = l
  | [], _, _, h => by simp at h
  | x :: xs, 0, a, h => by
      simp only [List.get?] at h
      cases h
      rfl
  | x :: xs, n + 1, a, h => by
      simp only [List.get?] at h
      simp only [List.set]
      rw [set_of_get?_eq xs n a h]

/-- Adding `d` to one momentum component does not change a particle's
projection when the quantised bucket of that component is unchanged. -/
theorem proj_comp_add (tol : ℚ) (c : FourComp) (d : ℚ) (p : Particle)
    (hq : quantize (comp_get c p + d) tol = quantize (comp_get c p) tol) :
    particle_proj tol (comp_add c d p) = particle_proj tol p := by
  cases c <;>
    simp only [particle_proj, comp_add, comp_get, particle_key, particle_graph_key] at hq ⊢ <;>
    rw [hq]

/-- Python's half-to-even rounding is within `1/2` of its argument. -/
theorem py_round_abs_le (x : ℚ) : |((py_round_half_even x : ℤ) : ℚ) - x| ≤ 1 / 2 := by
  have h0 : (0:ℚ) ≤ x - ⌊x⌋ := sub_nonneg.mpr (Int.floor_le x)
  have h1 : x - ⌊x⌋ < 1 := by have := Int.lt_floor_add_one x; linarith
  simp only [py_round_half_even]
  split_ifs with hlt hgt heven <;> rw [abs_le] <;> constructor <;> push_cast <;> linarith

/-- A perturbation below half a (positive) tolerance moves the
quantisation bucket by at most one. -/
theorem quantize_bucket_shift (tol x d : ℚ) (h0 : 0 < tol) (hd : |d| < tol / 2) :
    (py_round_half_even ((x + d) / tol) - py_round_half_even (x / tol)).natAbs ≤ 1 := by
  have hu := py_round_abs_le ((x + d) / tol)
  have hv := py_round_abs_le (x / tol)
  have heq : (x + d) / tol - x / tol = d / tol := by ring
  have hdiff : |(x + d) / tol - x / tol| < 1 / 2 := by
    rw [heq, abs_div, abs_of_pos h0, div_lt_iff h0]
    linarith
  set a := py_round_half_even ((x + d) / tol) with ha
  set b := py_round_half_even (x / tol) with hb
  rw [abs_le] at hu hv
  rw [abs_lt] at hdiff
  have hq : |((a - b : ℤ) : ℚ)| < 2 := by
    rw [abs_lt]
    push_cast
    constructor <;> linarith
  rw [← Int.cast_abs] at hq
  have h2 : |a - b| < (2 : ℤ) := by exact_mod_cast hq
  rw [Int.abs_eq_natAbs] at h2
  omega

/-- Quantised-bucket stability of one component implies fingerprint
stability under the corresponding perturbation. -/
theorem fingerprint_stable_of_bucket_stable (cfg : FingerprintConfig) (ev : Event) (i : Nat)
    (c : FourComp) (d : ℚ) (p : Particle) (hp : ev.particles.get? i = some p)
    (hq : quantize (comp_get c p + d) cfg.abs_tol = quantize (comp_get c p) cfg.abs_tol) :
    fingerprint_event (perturb_at ev i c d) cfg = fingerprint_event ev cfg := by
  unfold perturb_at
  rw [hp]
  unfold fingerprint_event fingerprint_payload
  have hmap : (ev.particles.set i (comp_add c d p)).map (particle_proj cfg.abs_tol) =
      ev.particles.map (particle_proj cfg.abs_tol) := by
    rw [List.map_set, proj_comp_add cfg.abs_tol c d p hq]
    apply set_of_get?_eq
    rw [List.get?_map, hp]
    rfl
  simp only [hmap]

mutual

/-- `_validate_ast` raises on every expression that contains an attribute
access, an indexing, or a name beginning with two underscores. -/
theorem validate_expr_of_banned : ∀ e : PyExpr, has_banned e = true → validate_expr e = false
  | .name id, h => by
      simp only [has_banned] at h
      simp [validate_expr, h]
  | .constant, h => by simp [has_banned] at h
  | .boolOp op vs, h => by
      simp only [has_banned] at h
      simp only [validate_expr]
      exact validate_list_of_banned vs h
  | .binOp l op r, h => by
      simp only [has_banned, Bool.or_eq_true] at h
      simp only [validate_expr]
      rcases h with h | h
      · rw [validate_expr_of_banned l h]
        simp
      · rw [validate_expr_of_banned r h]
        simp
  | .unaryOp op e, h => by
      simp only [has_banned] at h
      simp only [validate_expr]
      rw [validate_expr_of_banned e h]
      simp
  | .compare l ops rs, h => by
      simp only [has_banned, Bool.or_eq_true] at h
      simp only [validate_expr]
      rcases h with h | h
      · rw [validate_expr_of_banned l h]
        simp
      · rw [validate_list_of_banned rs h]
        simp
  | .call f args, h => by
      simp only [has_banned, Bool.or_eq_true] at h
      simp only [validate_expr]
      rcases h with h | h
      · cases f <;> simp_all [has_banned]
      · rw [validate_list_of_banned args h]
        simp
  | .attribute v a, _ => by simp [validate_expr]
  | .subscript v i, _ => by simp [validate_expr]
termination_by structural e => e

theorem validate_list_of_banned : ∀ es : List PyExpr,
    has_banned_list es = true → validate_expr_list es = false
  | [], h => by simp [has_banned_list] at h
  | e :: es, h => by
      simp only [has_banned_list, Bool.or_eq_true] at h
      simp only [validate_expr_list]
      rcases h with h | h
      · rw [validate_expr_of_banned e h]
        simp
      · rw [validate_list_of_banned es h]
        simp
termination_by structural l => l

end

/-! ## The claims -/

/-- Claim C1: the claim states that the `loss_hash` field of the report
emitted by `convert()` equals the SHA-256 hex digest of the canonical JSON
of the report's plan together with its observed loss counts as they stand
in the final report.  The code computes the hash at `convert.py:144`,
before the writer consumes the observed stream, so the hash covers the
still-empty counters: on an LHE-to-CSV conversion of one event with a
non-default `process_id`, the emitted hash differs from the hash of the
final report and instead equals the hash of the empty counter state. -/
theorem c1_convert_loss_hash_precedes_observation :
    (convert_audit "lhe" "csv" [c1_event]).loss_hash ≠
      loss_hash_of_final_report (convert_audit "lhe" "csv" [c1_event]) ∧
    (convert_audit "lhe" "csv" [c1_event]).loss_hash = loss_hash (loss_plan "lhe" "csv") {} := by
  with_unfolding_all decide

/-- Claim C2: the claim states that a malformed numeric field inside an
event is tolerated by defaulting the field and continuing.  The code of
`_parse_event_block` converts with bare `int()`/`float()` calls: on an
event block whose particle row carries `xyz` in the `px` column the
conversion raises (embedded as `none`), no event is produced, and the
exception is a `ValueError`, not a `FormatError`. -/
theorem c2_lhe_malformed_field_raises : parse_event_block c2_block 1 = none := by
  with_unfolding_all decide

/-- Claim C3: the claim states that inner `<weight>`/`<wgt>` entries of
`<weights>`/`<rwgt>` blocks are appended to `event.weights` and recorded
in `event.extra["lhe"]`.  The shipped parser never looks at those lines:
on a block with two `<weight>` and two `<wgt>` entries it returns the
event with the single header weight (`len(weights) == 1`, not `>= 5`) and
an empty `extra` dictionary, contradicting the claim (and the repository's
own test `test_lhe_edge_cases.py`). -/
theorem c3_lhe_weight_blocks_ignored :
    (parse_event_block c3_block 1).map (fun e => (e.weights.length, e.extra, e.particles.length))
      = some (1, [], 2) := by
  with_unfolding_all decide

/-- Claim C4: the claim states that after vertex reconstruction every
status `-1` particle has `vertex_barcode = 0` in both the HepMC3-writer
and the Parquet-reader paths.  The HepMC3 copy does set 0, but the Parquet
copy of `_build_vertices_from_mothers` routes every particle, incoming
ones included, through `_vtx_for`, so on a vertexless event with a single
status `-1`, motherless particle the Parquet path yields `-1` where the
claim requires `0`. -/
theorem c4_incoming_vertex_zero_divergence :
    ((parquet_build_vertices c4_event).particles.map fun p => p.vertex_barcode) = [-1] ∧
    ((hepmc3_build_vertices c4_event).particles.map fun p => p.vertex_barcode) = [0] := by
  with_unfolding_all decide

/-- Claim C5 counterexample: on a `P` record with raw status `11`
(outside `1..4`) the reader keeps `11` in `status` but does not create
the `hepmc_status_raw` attribute, contrary to the claim. -/
theorem c5_unmapped_status_attribute_missing :
    (parse_p_line c5_line).map (fun p => (p.status, p.attributes.lookup "hepmc_status_raw"))
      = some (11, none) ∧
    (parse_p_line c5_line).map (fun p => p.attributes.lookup "hepmc_status_raw")
      ≠ some (some 11) := by
  with_unfolding_all decide

/-- Claim C5 (amended): the reader stores the raw status code in
`attributes["hepmc_status_raw"]` exactly when the internal mapping changes
the code (raw `4` to `-1` and raw `3` to `2`); a code outside `1..4` is
kept unchanged in the particle's `status` field with no attribute set
(round-tripping restores it from `status`, which the writer passes
through). -/
theorem c5_status_raw_attribute_iff_mapping_changes : ∀ st : Int,
    (st ≠ 1 → st ≠ 2 → st ≠ 3 → st ≠ 4 →
      (particle_from_p 1 11 st 0 0 0 1 0 0 0).status = st ∧
      (particle_from_p 1 11 st 0 0 0 1 0 0 0).attributes.lookup "hepmc_status_raw" = none) ∧
    ((particle_from_p 1 11 4 0 0 0 1 0 0 0).status = -1 ∧
      (particle_from_p 1 11 4 0 0 0 1 0 0 0).attributes.lookup "hepmc_status_raw" = some 4) ∧
    ((particle_from_p 1 11 3 0 0 0 1 0 0 0).status = 2 ∧
      (particle_from_p 1 11 3 0 0 0 1 0 0 0).attributes.lookup "hepmc_status_raw" = some 3) ∧
    ((particle_from_p 1 11 1 0 0 0 1 0 0 0).attributes = [] ∧
      (particle_from_p 1 11 2 0 0 0 1 0 0 0).attributes = []) := by
  intro st
  refine ⟨?_, by with_unfolding_all decide, by with_unfolding_all decide,
    by with_unfolding_all decide, by with_unfolding_all decide⟩
  intro h1 h2 h3 h4
  simp [particle_from_p, hepmc_map_status, h1, h2, h3, h4]

/-- Claim C5 witness: the amended statement applied at the unmapped raw
code `11`. -/
theorem c5_status_raw_attribute_witness :
    (particle_from_p 1 11 11 0 0 0 1 0 0 0).status = 11 ∧
    (particle_from_p 1 11 11 0 0 0 1 0 0 0).attributes.lookup "hepmc_status_raw" = none :=
  (c5_status_raw_attribute_iff_mapping_changes 11).1
    (by decide) (by decide) (by decide) (by decide)

/-- Claim C6 counterexample: on an event with one outgoing particle
(`px = 1`, `energy = 1`) and no incoming particle, the claim's formula
fires for the `px` component at the default tolerance, yet `validate_event`
emits no momentum-conservation error (the code guards the whole check with
`incoming and outgoing`). -/
theorem c6_no_error_without_incoming :
    (1 : ℚ) / 10000 <
      |sum_comp (c6_event.particles.filter fun p => p.status == -1) 0 -
        sum_comp (c6_event.particles.filter fun p => p.status == 1) 0| /
      max |sum_comp (c6_event.particles.filter fun p => p.status == -1) 3|
        (max |sum_comp (c6_event.particles.filter fun p => p.status == 1) 3| (1 / 10 ^ 10)) ∧
    (validate_event (fun _ => true) true true true true (1 / 10000) (1 / 100) c6_event).all
      (fun i => match i.msg with | .momentum_noncons _ => false | _ => true) = true := by
  with_unfolding_all decide

/-- Claim C6 (amended): with the momentum check enabled, `validate_event`
emits a momentum-conservation error for component `k` exactly when the
event has at least one status `-1` particle, at least one status `1`
particle, and `|Σin_k − Σout_k| / max(|Σin_E|, |Σout_E|, 1e-10)` exceeds
`momentum_tolerance`; when either side is empty, no momentum error is
emitted regardless of the imbalance. -/
theorem c6_momentum_error_iff : ∀ (pdg_valid : Int → Bool) (cp ce cm : Bool)
    (momTol massTol : ℚ) (ev : Event) (k : Fin 4),
    ({ level := .error, event_number := ev.event_number, particle_index := none,
       msg := .momentum_noncons k } : VIssue) ∈
        validate_event pdg_valid true cp ce cm momTol massTol ev
    ↔ (ev.particles.filter (fun p => p.status == -1) ≠ [] ∧
       ev.particles.filter (fun p => p.status == 1) ≠ [] ∧
       momTol < |sum_comp (ev.particles.filter fun p => p.status == -1) k -
                 sum_comp (ev.particles.filter fun p => p.status == 1) k| /
               max |sum_comp (ev.particles.filter fun p => p.status == -1) 3|
                 (max |sum_comp (ev.particles.filter fun p => p.status == 1) 3| (1 / 10 ^ 10))) := by
  intro pv cp ce cm mt mat ev k
  simp only [validate_event]
  by_cases hp : ev.particles = []
  · simp [hp]
  · rw [if_neg hp]
    constructor
    · intro hmem
      rcases List.mem_append.mp hmem with h123 | hmom
      · exfalso
        rcases List.mem_append.mp h123 with h12 | h3
        · rcases List.mem_append.mp h12 with h1 | h2
          · split at h1
            · rcases List.mem_filterMap.mp h1 with ⟨ip, -, hf⟩
              split at hf
              · exact Option.noConfusion hf
              · simp at hf
            · simp at h1
          · split at h2
            · rcases List.mem_filterMap.mp h2 with ⟨ip, -, hf⟩
              split at hf
              · simp at hf
              · exact Option.noConfusion hf
            · simp at h2
        · split at h3
          · rcases List.mem_filterMap.mp h3 with ⟨ip, -, hf⟩
            split at hf
            · simp at hf
            · exact Option.noConfusion hf
          · simp at h3
      · rw [if_pos trivial] at hmom
        split at hmom
        · next hio =>
            rcases List.mem_filterMap.mp hmom with ⟨j, -, hf⟩
            split at hf
            · next hcond =>
                have hjk : j = k := by
                  simpa only [Option.some.injEq, VIssue.mk.injEq, VMsg.momentum_noncons.injEq,
                    true_and, and_true, eq_self_iff_true] using hf
                subst hjk
                exact ⟨hio.1, hio.2, hcond⟩
            · exact Option.noConfusion hf
        · simp at hmom
    · rintro ⟨h1, h2, h3⟩
      refine List.mem_append.mpr (Or.inr ?_)
      rw [if_pos trivial, if_pos ⟨h1, h2⟩]
      exact List.mem_filterMap.mpr ⟨k, List.mem_finRange k, by rw [if_pos h3]⟩

/-- Claim C7 counterexample: with the default `abs_tol = 1e-4`, perturbing
`px = 4e-5` by `d = 2e-5 < abs_tol / 2` crosses the half-integer rounding
boundary (`0.4` rounds to 0, `0.6` rounds to 1), and the two fingerprints
differ. -/
theorem c7_fingerprint_changes_within_half_tol :
    |(1 : ℚ) / 50000| < (1 / 10000) / 2 ∧
    fingerprint_event (perturb_at c7_event 0 .px (1 / 50000)) {} ≠
      fingerprint_event c7_event {} := by
  with_unfolding_all decide

/-- Claim C7 (amended): a perturbation of one four-momentum component
leaves the fingerprint unchanged whenever it leaves that component's
quantisation bucket `round(x / abs_tol)` unchanged; and a perturbation
with `|d| < abs_tol / 2` moves the bucket by at most one (but may move
it, so the fingerprints can differ — see the counterexample). -/
theorem c7_fingerprint_stable_iff_bucket_stable :
    (∀ (cfg : FingerprintConfig) (ev : Event) (i : Nat) (c : FourComp) (d : ℚ) (p : Particle),
      ev.particles.get? i = some p →
      quantize (comp_get c p + d) cfg.abs_tol = quantize (comp_get c p) cfg.abs_tol →
      fingerprint_event (perturb_at ev i c d) cfg = fingerprint_event ev cfg) ∧
    (∀ tol x d : ℚ, 0 < tol → |d| < tol / 2 →
      (py_round_half_even ((x + d) / tol) - py_round_half_even (x / tol)).natAbs ≤ 1) :=
  ⟨fingerprint_stable_of_bucket_stable, quantize_bucket_shift⟩

/-- Claim C7 witness: the amended statement applied at a concrete event
(`px = 0`, `d = 1e-5`, default configuration) and at concrete tolerances. -/
theorem c7_fingerprint_stable_witness :
    fingerprint_event (perturb_at c7w_event 0 .px (1 / 100000)) {} =
      fingerprint_event c7w_event {} ∧
    (py_round_half_even ((0 + 1 / 100000) / ((1 : ℚ) / 10000)) -
      py_round_half_even (0 / ((1 : ℚ) / 10000))).natAbs ≤ 1 :=
  ⟨c7_fingerprint_stable_iff_bucket_stable.1 {} c7w_event 0 .px (1 / 100000)
      { pdg_id := 11, status := 1, px := 0, py := 0, pz := 0, energy := 1 }
      (by with_unfolding_all decide) (by with_unfolding_all decide),
   c7_fingerprint_stable_iff_bucket_stable.2 (1 / 10000) 0 (1 / 100000)
      (by with_unfolding_all decide) (by with_unfolding_all decide)⟩

/-- Claim C8: `fingerprint_event` returns the same digest for every
permutation of the particle list, under every configuration: the particle
keys and the graph keys are sorted before hashing, and the weights and
process id do not depend on particle order.  (When `abs_tol <= 0` both
sides raise, embedded as `none = none`.) -/
theorem c8_fingerprint_permutation_invariant :
    ∀ (cfg : FingerprintConfig) (ev : Event) (ps' : List Particle),
    List.Perm ps' ev.particles →
    fingerprint_event { ev with particles := ps' } cfg = fingerprint_event ev cfg := by
  intro cfg ev ps' h
  unfold fingerprint_event fingerprint_payload
  have := fingerprint_payload_of_perm cfg (h.map (particle_proj cfg.abs_tol))
    ev.weights ev.process_id
  simp only [this]

/-- Claim C8 witness: the theorem applied to a two-particle event with the
list reversed. -/
theorem c8_fingerprint_permutation_witness :
    fingerprint_event { c8_event with particles := c8_particles.reverse } {} =
      fingerprint_event c8_event {} :=
  c8_fingerprint_permutation_invariant {} c8_event c8_particles.reverse
    (List.reverse_perm c8_particles)

/-- Claim C9 counterexample: the expression `_x > 0` contains the
identifier `_x`, which begins with an underscore, yet `_validate_ast`
accepts it (the code only rejects names beginning with two underscores),
so `compile_filter` does not raise. -/
theorem c9_single_underscore_accepted :
    validate_expr c9_expr = true ∧ py_startswith "_x" "_" = true := by
  with_unfolding_all decide

/-- Claim C9 (amended): `compile_filter` raises `UnsafeFilterExpression`
for every expression that contains an attribute access, an indexing, or
an identifier beginning with two underscores (an `import` cannot appear in
`eval` mode at all and is rejected as a `SyntaxError` wrapped in the same
exception type); identifiers beginning with a single underscore are
accepted. -/
theorem c9_validator_rejects_attr_subscript_dunder :
    ∀ e : PyExpr, has_banned e = true → validate_expr e = false :=
  validate_expr_of_banned

/-- Claim C9 witness: the amended statement applied to an attribute
access. -/
theorem c9_validator_rejects_witness :
    validate_expr (.attribute (.name "x") "y") = false :=
  c9_validator_rejects_attr_subscript_dunder (.attribute (.name "x") "y") (by decide)

/-- Claim C10: `Event.weight` returns `weights[0]` when the list is
non-empty and `1.0` when it is empty; the match on the list makes the
access total (no out-of-bounds error is possible). -/
theorem c10_weight_head_or_one : ∀ ev : Event, ev.weight = ev.weights.headD 1 := by
  intro ev
  cases hw : ev.weights <;> simp [Event.weight, hw]
